import Mathlib

/-!
Shallow embedding of the incident-alert pipeline of
`src/Sentinel-X-Hackathon-main/main.py` (Sentinel-X).

Conventions of the embedding:
* Python `float` values (confidences, timestamps, coordinates) become `ℚ`;
  Python `int` becomes `ℤ` (or `ℕ` where the source value is a count that
  starts at 0 and is only incremented).
* Python strings become `String`; where substring reasoning is needed we
  work on `String.data : List Char`.
* Side effects (HTTP calls, `time.time()`, `datetime.now()`) are passed in
  explicitly: each call site of `time.time()` becomes a parameter, and the
  outcome of each downstream HTTP interaction becomes a `Bool` parameter.
* The module-level mutable globals (`last_ibm_trigger_time`,
  `last_snapshot_time`, `heatmap_tracker.incidents`) become a `Globals`
  record threaded through the functions that mutate them.
-/

/-- Single-quote character (used by the Python `str(list)` rendering). -/
def quoteCh : Char := Char.ofNat 39

/-- ASCII lowercasing of one character, as Python `str.lower` acts on the
ASCII range (YOLO class names and the keyword tables are ASCII). -/
def lowerChar (c : Char) : Char :=
  if 'A' ≤ c ∧ c ≤ 'Z' then Char.ofNat (c.toNat + 32) else c

/-- Python `s.lower()` on the character list of a string. -/
def lowerStr (s : List Char) : List Char := s.map lowerChar

/-- Check that `n` occurs at the very start of `h`. -/
def startsList : List Char → List Char → Bool
  | [], _ => true
  | _ :: _, [] => false
  | a :: as, b :: bs => a == b && startsList as bs

/-- Python substring test `n in h`, on character lists. -/
def hasSub (n : List Char) : List Char → Bool
  | [] => n.isEmpty
  | b :: bs => startsList n (b :: bs) || hasSub n bs

/-- Python `repr` of a string without internal quotes: wrap in single
quotes.  (YOLO class names contain no quote characters, so the escaping
branch of `repr` is never taken.) -/
def pyReprStr (s : List Char) : List Char := quoteCh :: (s ++ [quoteCh])

/-- Comma-space join of the reprs of the elements, as in Python
`str(list)` between the brackets. -/
def pyJoinRepr : List (List Char) → List Char
  | [] => []
  | [s] => pyReprStr s
  | s :: t :: rest => pyReprStr s ++ (',' :: ' ' :: pyJoinRepr (t :: rest))

/-- Python `str(labels)` for a list of strings: `['a', 'b']`. -/
def pyStrOfStrList (labels : List String) : List Char :=
  '[' :: (pyJoinRepr (labels.map String.data) ++ [']'])

/-- Hazard keyword table of `calculate_accident_severity` (main.py line 65). -/
def crashKeywords : List String :=
  ["crash", "accident", "severe", "collision", "damage"]

/-- Embedding of `calculate_accident_severity(vehicle_count, confidence,
labels)` (main.py lines 56-72).  `has_crash` is the Python expression
`any(k in str(labels).lower() for k in [...])`. -/
def calculate_accident_severity (vehicle_count : ℤ) (confidence : ℚ)
    (labels : List String) : String :=
  let has_crash := crashKeywords.any
    (fun k => hasSub k.data (lowerStr (pyStrOfStrList labels)))
  if vehicle_count ≥ 3 ∨ (has_crash ∧ vehicle_count ≥ 2 ∧ confidence > 0.7) then
    "SEVERE"
  else if vehicle_count = 2 ∧ has_crash then
    "MODERATE"
  else
    "MINOR"

/-- Embedding of `QueueEstimator.estimate_queue_length` (main.py lines
127-133) at the default `avg_car_length=4.5`. -/
def estimate_queue_length (vehicle_count : ℤ) : ℚ :=
  (vehicle_count : ℚ) * 4.5

/-- Embedding of `QueueEstimator.estimate_wait_time` (main.py lines
135-146) at the default `signal_cycle_time=90`. -/
def estimate_wait_time (vehicle_count : ℤ) : ℤ :=
  let clearance_time_per_vehicle : ℤ := 2
  let estimated_wait := vehicle_count * clearance_time_per_vehicle
  if estimated_wait > 90 then 90 else max 0 estimated_wait

/-- Keyword table `VEHICLE_TYPES` (main.py lines 75-82), in Python dict
insertion order, which the `for` loop of `classify_vehicle_type` follows. -/
def VEHICLE_TYPES : List (String × List String) :=
  [("car", ["car", "automobile", "vehicle"]),
   ("truck", ["truck", "lorry", "van"]),
   ("motorcycle", ["motorcycle", "motorbike", "bike", "scooter"]),
   ("bus", ["bus", "coach"]),
   ("bicycle", ["bicycle", "cycle"]),
   ("person", ["person", "pedestrian", "human"])]

/-- Embedding of `classify_vehicle_type(label)` (main.py lines 84-91):
first category in table order one of whose keywords occurs in the
lowercased label; `"other"` when none matches. -/
def classify_vehicle_type (label : String) : String :=
  let label_lower := lowerStr label.data
  match VEHICLE_TYPES.find? (fun p => p.2.any (fun k => hasSub k.data label_lower)) with
  | some p => p.1
  | none => "other"

/-- One entry of `heatmap_tracker.incidents` (main.py lines 99-105).  The
`timestamp` string comes from `datetime.now().isoformat()`, passed in
explicitly here. -/
structure Incident where
  lat : ℚ
  lon : ℚ
  severity : String
  timestamp : String
deriving DecidableEq

/-- One entry of the list built by `get_hotspots` (main.py lines 107-119). -/
structure Hotspot where
  location : ℚ × ℚ
  severity : String
  time : String
deriving DecidableEq

/-- Embedding of `HeatmapTracker.add_incident` (main.py lines 99-105) for a
tracker built with `max_history = maxHistory`: a `deque(maxlen=maxHistory)`
append keeps the most recent `maxHistory` elements, evicting from the left. -/
def add_incident (maxHistory : ℕ) (buf : List Incident) (i : Incident) :
    List Incident :=
  let b := buf ++ [i]
  b.drop (b.length - maxHistory)

/-- Embedding of `HeatmapTracker.get_hotspots` (main.py lines 107-119). -/
def get_hotspots (buf : List Incident) : List Hotspot :=
  if buf = [] then []
  else buf.map (fun i => ⟨(i.lat, i.lon), i.severity, i.timestamp⟩)

/-- Folding a sequence of `add_incident` calls over the tracker, as the
per-frame loop does once per alerting frame. -/
def addAll (maxHistory : ℕ) (buf : List Incident) (is : List Incident) :
    List Incident :=
  is.foldl (add_incident maxHistory) buf

/-- Hardcoded demo location (main.py lines 48-49). -/
def CAMERA_LAT : ℚ := 15.4589

/-- Hardcoded demo location (main.py lines 48-49). -/
def CAMERA_LON : ℚ := 75.0078

/-- Cooldown constants (main.py lines 320-321). -/
def IBM_COOLDOWN : ℚ := 60

/-- Cooldown constants (main.py lines 320-321). -/
def SNAPSHOT_COOLDOWN : ℚ := 15

/-- Module-level mutable state of main.py: the two cooldown globals
(lines 318-319) and the incident deque of the global `heatmap_tracker`
(line 121, built with the default `max_history=100`). -/
structure Globals where
  last_ibm_trigger_time : ℚ
  last_snapshot_time : ℚ
  incidents : List Incident
deriving DecidableEq

/-- Embedding of `trigger_ibm_agent` (main.py lines 166-227).  The two
`time.time()` call sites become `nowCheck` (cooldown check, line 174) and
`nowDone` (success recording, line 220).  `tokenOk` is whether
`get_ibm_token()` returned a token, `transportOk` whether `requests.post`
returned without raising, `status200` whether the response status was 200.
Returns the `status` string of the returned dict together with the updated
globals; only `last_ibm_trigger_time` is ever written, and only on the
status-200 path. -/
def trigger_ibm_agent (g : Globals) (nowCheck nowDone : ℚ)
    (tokenOk transportOk status200 : Bool) : String × Globals :=
  if nowCheck - g.last_ibm_trigger_time < IBM_COOLDOWN then
    ("cooldown", g)
  else if tokenOk = false then
    ("auth_failed", g)
  else if transportOk = false then
    ("error", g)
  else if status200 then
    ("triggered", { g with last_ibm_trigger_time := nowDone })
  else
    ("failed", g)

/-- Embedding of the evidence-capture block of the websocket loop
(main.py lines 411-422): if the snapshot cooldown has elapsed,
`last_snapshot_time` is set to `current` and the background evidence
thread is started.  The thread's downstream outcome (`downstreamOk`: image
save and Telegram delivery in `handle_alert_background`) has no channel
back into any global — the parameter is threaded through only so that
properties about downstream failure can be stated; the code updates the
timestamp before the thread runs, whatever the thread later does.
Returns whether the thread was started, with the updated globals. -/
def snapshotAttempt (g : Globals) (current : ℚ) (downstreamOk : Bool) :
    Bool × Globals :=
  if current - g.last_snapshot_time > SNAPSHOT_COOLDOWN then
    (true, { g with last_snapshot_time := current })
  else
    (false, g)

/-- One classifier detection: the `label` and `conf` the websocket loop
extracts from each YOLO box (main.py lines 352-354).  The bounding box is
carried along by the code but never read by the logic embedded here. -/
structure Det where
  label : String
  conf : ℚ
deriving DecidableEq

/-- Critical keyword table (main.py line 374). -/
def critical_keywords : List String :=
  ["accident", "crash", "car_crash", "damage", "wreck", "severe", "collision"]

/-- Supporting keyword table (main.py line 375). -/
def supporting_keywords : List String := ["car", "vehicle", "person"]

/-- Python `any(k in label.lower() for k in critical_keywords)`
(main.py line 378). -/
def is_critical (label : String) : Bool :=
  critical_keywords.any (fun k => hasSub k.data (lowerStr label.data))

/-- Python `any(k in label.lower() for k in supporting_keywords)`
(main.py line 381). -/
def is_supporting (label : String) : Bool :=
  supporting_keywords.any (fun k => hasSub k.data (lowerStr label.data))

/-- Trigger condition of main.py line 383:
`(is_critical and conf > 0.4) or (is_supporting and conf > 0.7)`. -/
def triggerCond (d : Det) : Bool :=
  (is_critical d.label && decide (d.conf > 0.4)) ||
    (is_supporting d.label && decide (d.conf > 0.7))

/-- Per-frame accumulator variables of the detection loop (main.py lines
343-348).  The per-type count dict is carried by the code but not read by
any property below, so it is left out of the accumulator. -/
structure FrameState where
  accident_detected : Bool
  total_vehicles : ℕ
  highest_conf : ℚ
  detected_labels : List String
deriving DecidableEq

/-- Initial values of the per-frame accumulators (main.py lines 343-348). -/
def initFrameState : FrameState := ⟨false, 0, 0, []⟩

/-- Body of the detection loop (main.py lines 350-386) for one box.  Note
line 385: `highest_conf = conf` is a plain assignment executed whenever
the trigger condition holds, overwriting any earlier value. -/
def stepDet (s : FrameState) (d : Det) : FrameState :=
  let vehicle_type := classify_vehicle_type d.label
  let s₁ : FrameState :=
    { s with
      total_vehicles :=
        if vehicle_type ≠ "other" then s.total_vehicles + 1 else s.total_vehicles,
      detected_labels := s.detected_labels ++ [d.label] }
  if triggerCond d then
    { s₁ with accident_detected := true, highest_conf := d.conf }
  else
    s₁

/-- Whole detection loop over the boxes of one frame. -/
def processFrame (dets : List Det) : FrameState :=
  dets.foldl stepDet initFrameState

/-- Modelled from the spec: `track peak_confidence as max of all
confidences for labels matching trigger keywords` — the maximum of the
confidences over the detections satisfying the trigger condition (0 when
none matches, the loop's initial value).  This definition follows the
spec's words, for comparison with `processFrame`'s `highest_conf`. -/
def specPeakConfidence (dets : List Det) : ℚ :=
  (dets.filter triggerCond).foldl (fun m d => max m d.conf) 0

/-- Fields of the per-frame JSON record (main.py lines 424-437) that the
verified properties mention, plus two control-flow observations of the
alerting block: whether `trigger_ibm_agent` was invoked at all and whether
the evidence thread was started. -/
structure FrameOut where
  accident_alert : Bool
  ibm_agent_status : String
  severity : String
  total_vehicles : ℕ
  agentCallAttempted : Bool
  evidenceThreadStarted : Bool
deriving DecidableEq

/-- External inputs consumed by one pass of the alerting block: the
`time.time()` at line 392 (`now`), the two `time.time()` sites inside
`trigger_ibm_agent`, the three downstream outcomes of the IBM call, the
downstream outcome of the evidence thread, and the
`datetime.now().isoformat()` string recorded with the incident. -/
structure Oracle where
  now : ℚ
  nowIbmCheck : ℚ
  nowIbmDone : ℚ
  tokenOk : Bool
  transportOk : Bool
  status200 : Bool
  evidenceOk : Bool
  ts : String

/-- Embedding of the per-frame alerting block of the websocket loop
(main.py lines 388-437): run the detection loop, and when
`accident_detected` holds compute severity, record the incident on the
heatmap, call `trigger_ibm_agent` with `highest_conf`, and attempt the
cooldown-gated evidence capture; otherwise leave the globals untouched
and emit `severity = "NONE"`, `ibm_agent_status = "idle"`. -/
def frameStep (g : Globals) (dets : List Det) (o : Oracle) :
    FrameOut × Globals :=
  let s := processFrame dets
  if s.accident_detected then
    let severity :=
      calculate_accident_severity s.total_vehicles s.highest_conf s.detected_labels
    let g₁ : Globals :=
      { g with incidents :=
          add_incident 100 g.incidents ⟨CAMERA_LAT, CAMERA_LON, severity, o.ts⟩ }
    let r := trigger_ibm_agent g₁ o.nowIbmCheck o.nowIbmDone
      o.tokenOk o.transportOk o.status200
    let ibm_status := if r.1 = "triggered" then "active" else "idle"
    let e := snapshotAttempt r.2 o.now o.evidenceOk
    (⟨true, ibm_status, severity, s.total_vehicles, true, e.1⟩, e.2)
  else
    (⟨false, "idle", "NONE", s.total_vehicles, false, false⟩, g)

/-- Presence of some hazard keyword of `crashKeywords` inside one
(lowercased) label.  Used to phrase hypotheses about label lists. -/
def hasCrashKeywordIn (label : String) : Bool :=
  crashKeywords.any (fun k => hasSub k.data (lowerStr label.data))

example : calculate_accident_severity 3 0 [] = "SEVERE" := by
  norm_num [calculate_accident_severity]

example : calculate_accident_severity 2 0.5 ["crash"] = "MODERATE" := by
  have h : (crashKeywords.any
      (fun k => hasSub k.data (lowerStr (pyStrOfStrList ["crash"])))) = true := by
    decide
  simp only [calculate_accident_severity, h]
  norm_num

example : calculate_accident_severity 0 0.9 ["crash"] = "MINOR" := by
  norm_num [calculate_accident_severity]

example : estimate_wait_time 50 = 90 := by norm_num [estimate_wait_time]
example : estimate_queue_length 2 = 9 := by norm_num [estimate_queue_length]

/-! ### Substring lemmas for the Python `in` test -/

lemma startsList_append (n h t : List Char) (hh : startsList n h = true) :
    startsList n (h ++ t) = true := by
  induction n generalizing h with
  | nil => simp [startsList]
  | cons a as ih =>
    cases h with
    | nil => simp [startsList] at hh
    | cons b bs =>
      simp only [startsList, Bool.and_eq_true] at hh ⊢
      exact ⟨hh.1, ih bs hh.2⟩

lemma hasSub_nil_left (t : List Char) : hasSub [] t = true := by
  cases t with
  | nil => rfl
  | cons b bs => simp [hasSub, startsList]

lemma hasSub_append_right (n h t : List Char) (hh : hasSub n h = true) :
    hasSub n (h ++ t) = true := by
  induction h with
  | nil =>
    simp only [hasSub, List.isEmpty_iff] at hh
    subst hh
    simpa using hasSub_nil_left t
  | cons b bs ih =>
    simp only [hasSub, Bool.or_eq_true] at hh
    rcases hh with h1 | h2
    · simpa [hasSub, Bool.or_eq_true] using
        Or.inl (startsList_append n (b :: bs) t h1)
    · simpa [hasSub, Bool.or_eq_true] using Or.inr (ih h2)

lemma hasSub_append_left (n p h : List Char) (hh : hasSub n h = true) :
    hasSub n (p ++ h) = true := by
  induction p with
  | nil => simpa using hh
  | cons a ps ih =>
    simpa [hasSub, Bool.or_eq_true] using Or.inr ih

lemma hasSub_lower_pyReprStr (k s : List Char)
    (hh : hasSub k (lowerStr s) = true) :
    hasSub k (lowerStr (pyReprStr s)) = true := by
  have he : lowerStr (pyReprStr s) =
      [lowerChar quoteCh] ++ (lowerStr s ++ [lowerChar quoteCh]) := by
    simp [pyReprStr, lowerStr]
  rw [he]
  exact hasSub_append_left _ _ _ (hasSub_append_right _ _ _ hh)

lemma hasSub_lower_pyJoin (k l : List Char) (ls : List (List Char))
    (hmem : l ∈ ls) (hh : hasSub k (lowerStr l) = true) :
    hasSub k (lowerStr (pyJoinRepr ls)) = true := by
  induction ls with
  | nil => cases hmem
  | cons s rest ih =>
    cases rest with
    | nil =>
      rcases List.mem_singleton.mp hmem with rfl
      exact hasSub_lower_pyReprStr k l hh
    | cons t r =>
      rcases List.mem_cons.mp hmem with rfl | hmem'
      · have he : lowerStr (pyJoinRepr (l :: t :: r)) =
            lowerStr (pyReprStr l) ++ lowerStr (',' :: ' ' :: pyJoinRepr (t :: r)) := by
          simp [pyJoinRepr, lowerStr]
        rw [he]
        exact hasSub_append_right _ _ _ (hasSub_lower_pyReprStr k l hh)
      · have he : lowerStr (pyJoinRepr (s :: t :: r)) =
            (lowerStr (pyReprStr s) ++ [lowerChar ',', lowerChar ' ']) ++
              lowerStr (pyJoinRepr (t :: r)) := by
          simp [pyJoinRepr, lowerStr]
        rw [he]
        exact hasSub_append_left _ _ _ (ih hmem')

/-- One label carrying a hazard keyword makes the `has_crash` test of
`calculate_accident_severity` succeed on the whole `str(labels)` string. -/
lemma has_crash_of_mem (labels : List String) (l : String)
    (hmem : l ∈ labels) (hh : hasCrashKeywordIn l = true) :
    (crashKeywords.any
      (fun k => hasSub k.data (lowerStr (pyStrOfStrList labels)))) = true := by
  rcases List.any_eq_true.mp hh with ⟨k, hk, hsub⟩
  refine List.any_eq_true.mpr ⟨k, hk, ?_⟩
  simp only [pyStrOfStrList, lowerStr, List.map_cons, List.map_append]
  apply hasSub_append_left _ [lowerChar '[']
  apply hasSub_append_right
  exact hasSub_lower_pyJoin k.data l.data (labels.map String.data)
    (List.mem_map_of_mem String.data hmem) hsub

/-! ### Claim theorems: Severity Engine -/

/-- C3: for every integer `vehicle_count ≥ 3`, every confidence and every
label list, `calculate_accident_severity` returns `"SEVERE"`. -/
theorem severity_three_or_more_is_severe (v : ℤ) (c : ℚ) (labels : List String)
    (hv : 3 ≤ v) :
    calculate_accident_severity v c labels = "SEVERE" := by
  simp only [calculate_accident_severity]
  split
  · rfl
  · rename_i hcond
    exact absurd (Or.inl hv) hcond

theorem severity_three_or_more_is_severe_witness :
    (3 : ℤ) ≤ 3 ∧ calculate_accident_severity 3 0 [] = "SEVERE" :=
  ⟨by norm_num, severity_three_or_more_is_severe 3 0 [] (by norm_num)⟩

/-- C4: with exactly two vehicles, a crash keyword among the labels and
confidence at most 0.7, `calculate_accident_severity` returns
`"MODERATE"`. -/
theorem severity_two_crash_low_conf_moderate (c : ℚ) (labels : List String)
    (hl : ∃ l ∈ labels, hasCrashKeywordIn l = true) (hc : c ≤ 0.7) :
    calculate_accident_severity 2 c labels = "MODERATE" := by
  obtain ⟨l, hmem, hcrash⟩ := hl
  have hcr := has_crash_of_mem labels l hmem hcrash
  simp only [calculate_accident_severity]
  split
  · rename_i hcond
    exfalso
    rcases hcond with h | ⟨-, -, h⟩
    · omega
    · exact absurd h (not_lt.mpr hc)
  · split
    · rfl
    · rename_i hcond2
      exact absurd ⟨by trivial, hcr⟩ hcond2

theorem severity_two_crash_low_conf_moderate_witness :
    (∃ l ∈ ["crash"], hasCrashKeywordIn l = true) ∧ (0 : ℚ) ≤ 0.7 ∧
      calculate_accident_severity 2 0 ["crash"] = "MODERATE" :=
  ⟨⟨"crash", by decide⟩, by norm_num,
    severity_two_crash_low_conf_moderate 0 ["crash"]
      ⟨"crash", by decide⟩ (by norm_num)⟩

/-- C5: invoked with zero vehicles, `calculate_accident_severity`
terminates (it is a total function) and returns `"MINOR"` for every
confidence and every label list, crash keywords included. -/
theorem severity_zero_vehicles_minor (c : ℚ) (labels : List String) :
    calculate_accident_severity 0 c labels = "MINOR" := by
  simp only [calculate_accident_severity]
  split
  · rename_i hcond
    exfalso
    rcases hcond with h | ⟨-, h, -⟩ <;> omega
  · split
    · rename_i hcond2
      exfalso
      omega
    · rfl

/-! ### Claim theorem: Queue Estimator -/

/-- C6: for every `n ≥ 0`, `estimate_queue_length n = n * 4.5` and
`estimate_wait_time n = min 90 (max 0 (n * 2))`; both are monotone
non-decreasing, and the wait time is never negative and never exceeds the
90-second signal cycle. -/
theorem queue_estimator_contract (n : ℤ) (hn : 0 ≤ n) :
    estimate_queue_length n = (n : ℚ) * 4.5 ∧
    estimate_wait_time n = min 90 (max 0 (n * 2)) ∧
    (∀ m : ℤ, n ≤ m →
      estimate_queue_length n ≤ estimate_queue_length m ∧
      estimate_wait_time n ≤ estimate_wait_time m) ∧
    0 ≤ estimate_wait_time n ∧ estimate_wait_time n ≤ 90 := by
  refine ⟨rfl, ?_, ?_, ?_, ?_⟩
  · simp only [estimate_wait_time]
    split <;> omega
  · intro m hm
    constructor
    · simp only [estimate_queue_length]
      have : (n : ℚ) ≤ (m : ℚ) := by exact_mod_cast hm
      nlinarith
    · simp only [estimate_wait_time]
      split <;> split <;> omega
  · simp only [estimate_wait_time]
    split <;> omega
  · simp only [estimate_wait_time]
    split <;> omega

theorem queue_estimator_contract_witness :
    (0 : ℤ) ≤ 5 ∧
      (estimate_queue_length 5 = (5 : ℚ) * 4.5 ∧
      estimate_wait_time 5 = min 90 (max 0 (5 * 2)) ∧
      (∀ m : ℤ, 5 ≤ m →
        estimate_queue_length 5 ≤ estimate_queue_length m ∧
        estimate_wait_time 5 ≤ estimate_wait_time m) ∧
      0 ≤ estimate_wait_time 5 ∧ estimate_wait_time 5 ≤ 90) :=
  ⟨by norm_num, queue_estimator_contract 5 (by norm_num)⟩

/-! ### Claim theorem: Incident Tracker -/

lemma get_hotspots_eq_map (buf : List Incident) :
    get_hotspots buf =
      buf.map (fun i => ⟨(i.lat, i.lon), i.severity, i.timestamp⟩) := by
  cases buf <;> simp [get_hotspots]

lemma drop_absorb {α : Type} (x ys : List α) (m : ℕ) :
    (x.drop (x.length - m) ++ ys).drop ((x.drop (x.length - m) ++ ys).length - m)
      = (x ++ ys).drop ((x ++ ys).length - m) := by
  by_cases hx : x.length ≤ m
  · rw [Nat.sub_eq_zero_of_le hx]
    simp
  · push_neg at hx
    have h1 : (x ++ ys).length - m =
        (x.take (x.length - m)).length +
          ((x.drop (x.length - m) ++ ys).length - m) := by
      simp only [List.length_take, List.length_drop, List.length_append]
      omega
    calc (x.drop (x.length - m) ++ ys).drop
            ((x.drop (x.length - m) ++ ys).length - m)
        = (x.take (x.length - m) ++ (x.drop (x.length - m) ++ ys)).drop
            ((x ++ ys).length - m) := by
          rw [h1, List.drop_append]
      _ = (x ++ ys).drop ((x ++ ys).length - m) := by
          rw [← List.append_assoc, List.take_append_drop]

lemma addAll_eq (m : ℕ) (is : List Incident) : ∀ (buf : List Incident),
    buf.length ≤ m →
    addAll m buf is = (buf ++ is).drop ((buf ++ is).length - m) := by
  induction is with
  | nil =>
    intro buf hb
    simp [addAll, Nat.sub_eq_zero_of_le hb]
  | cons i is ih =>
    intro buf hb
    have hlen : (add_incident m buf i).length ≤ m := by
      simp only [add_incident, List.length_drop]
      omega
    have hstep : addAll m buf (i :: is) = addAll m (add_incident m buf i) is := by
      simp only [addAll, List.foldl_cons]
    rw [hstep, ih (add_incident m buf i) hlen]
    have hsplit : buf ++ i :: is = (buf ++ [i]) ++ is := by simp
    rw [hsplit]
    simp only [add_incident]
    exact drop_absorb (buf ++ [i]) is m

/-- C7: inserting `100 + k` incidents into the (default-capacity) tracker
leaves exactly 100 entries — the `k` oldest evicted, insertion order
preserved for the rest (the result is literally the suffix `is.drop k`);
the size never exceeds 100 after any insertion sequence; and
`get_hotspots` returns the stored incidents as a field-renaming snapshot
in insertion order, oldest first. -/
theorem incident_tracker_ring_buffer (is : List Incident) (k : ℕ)
    (hlen : is.length = 100 + k) :
    addAll 100 [] is = is.drop k ∧
    (addAll 100 [] is).length = 100 ∧
    get_hotspots (addAll 100 [] is) =
      (is.drop k).map (fun i => ⟨(i.lat, i.lon), i.severity, i.timestamp⟩) ∧
    (∀ js : List Incident, (addAll 100 [] js).length ≤ 100) := by
  have h1 : addAll 100 [] is = is.drop k := by
    rw [addAll_eq 100 is [] (by simp)]
    simp only [List.nil_append]
    congr 1
    omega
  refine ⟨h1, ?_, ?_, ?_⟩
  · rw [h1, List.length_drop, hlen]
    omega
  · rw [h1, get_hotspots_eq_map]
  · intro js
    rw [addAll_eq 100 js [] (by simp)]
    simp only [List.nil_append, List.length_drop]
    omega

theorem incident_tracker_ring_buffer_witness :
    (List.replicate 101 (⟨0, 0, "SEVERE", "t"⟩ : Incident)).length = 100 + 1 ∧
      (addAll 100 [] (List.replicate 101 (⟨0, 0, "SEVERE", "t"⟩ : Incident)) =
        (List.replicate 101 (⟨0, 0, "SEVERE", "t"⟩ : Incident)).drop 1 ∧
      (addAll 100 [] (List.replicate 101 (⟨0, 0, "SEVERE", "t"⟩ : Incident))).length = 100 ∧
      get_hotspots (addAll 100 [] (List.replicate 101 (⟨0, 0, "SEVERE", "t"⟩ : Incident))) =
        ((List.replicate 101 (⟨0, 0, "SEVERE", "t"⟩ : Incident)).drop 1).map
          (fun i => ⟨(i.lat, i.lon), i.severity, i.timestamp⟩) ∧
      (∀ js : List Incident, (addAll 100 [] js).length ≤ 100)) :=
  ⟨by simp,
    incident_tracker_ring_buffer
      (List.replicate 101 (⟨0, 0, "SEVERE", "t"⟩ : Incident)) 1 (by simp)⟩

/-! ### Per-frame detection-loop lemmas -/

lemma foldl_stepDet_accident (dets : List Det) : ∀ s : FrameState,
    (List.foldl stepDet s dets).accident_detected =
      (s.accident_detected || dets.any triggerCond) := by
  induction dets with
  | nil => intro s; simp
  | cons d ds ih =>
    intro s
    rw [List.foldl_cons, ih]
    by_cases h : triggerCond d = true
    · simp [stepDet, h]
    · simp only [Bool.not_eq_true] at h
      simp [stepDet, h]

/-- The loop flag equals existence of a detection satisfying the trigger
condition of main.py line 383. -/
lemma processFrame_accident (dets : List Det) :
    (processFrame dets).accident_detected = dets.any triggerCond := by
  rw [processFrame, foldl_stepDet_accident]
  rfl

/-! ### Claim theorem: trigger rule (C8) -/

/-- C8: `accident_alert` is true iff some detection has a critical-keyword
label with confidence above 0.4 or a supporting-keyword label with
confidence above 0.7; and the single detection `person@0.6` yields
`accident_alert = false`, `severity = "NONE"`, no agent call, no evidence
thread, and globals (hence the incident store) untouched. -/
theorem accident_alert_iff_trigger :
    (∀ dets : List Det, (processFrame dets).accident_detected = true ↔
      ∃ d ∈ dets, (is_critical d.label = true ∧ d.conf > 0.4) ∨
        (is_supporting d.label = true ∧ d.conf > 0.7)) ∧
    (∀ (g : Globals) (o : Oracle),
      frameStep g [⟨"person", 0.6⟩] o = (⟨false, "idle", "NONE", 1, false, false⟩, g)) := by
  constructor
  · intro dets
    rw [processFrame_accident, List.any_eq_true]
    constructor
    · rintro ⟨d, hd, ht⟩
      refine ⟨d, hd, ?_⟩
      simpa [triggerCond, Bool.or_eq_true, Bool.and_eq_true,
        decide_eq_true_eq] using ht
    · rintro ⟨d, hd, ht⟩
      refine ⟨d, hd, ?_⟩
      simpa [triggerCond, Bool.or_eq_true, Bool.and_eq_true,
        decide_eq_true_eq] using ht
  · intro g o
    have h1 : is_critical "person" = false := by decide
    have h2 : is_supporting "person" = true := by decide
    have h3 : triggerCond ⟨"person", 0.6⟩ = false := by
      simp only [triggerCond, h1, h2, Bool.false_and, Bool.false_or,
        Bool.true_and, decide_eq_false_iff_not]
      norm_num
    have h4 : classify_vehicle_type "person" = "person" := by decide
    have hpf : processFrame [⟨"person", 0.6⟩] = ⟨false, 1, 0, ["person"]⟩ := by
      simp [processFrame, stepDet, h3, h4, initFrameState]
    simp [frameStep, hpf]

/-! ### Claim theorem: severity is never NONE (C10) -/

lemma severity_mem_three (v : ℤ) (c : ℚ) (labels : List String) :
    calculate_accident_severity v c labels = "MINOR" ∨
    calculate_accident_severity v c labels = "MODERATE" ∨
    calculate_accident_severity v c labels = "SEVERE" := by
  simp only [calculate_accident_severity]
  split
  · right; right; rfl
  · split
    · right; left; rfl
    · left; rfl

/-- C10: the severity engine never returns `"NONE"` (its value is always
MINOR, MODERATE or SEVERE), and the emitted frame record has
`severity = "NONE"` exactly when `accident_alert = false`. -/
theorem frame_severity_none_iff_no_alert :
    (∀ (v : ℤ) (c : ℚ) (labels : List String),
      calculate_accident_severity v c labels = "MINOR" ∨
      calculate_accident_severity v c labels = "MODERATE" ∨
      calculate_accident_severity v c labels = "SEVERE") ∧
    (∀ (v : ℤ) (c : ℚ) (labels : List String),
      calculate_accident_severity v c labels ≠ "NONE") ∧
    (∀ (g : Globals) (dets : List Det) (o : Oracle),
      (frameStep g dets o).1.severity = "NONE" ↔
        (frameStep g dets o).1.accident_alert = false) := by
  have hne : ∀ (v : ℤ) (c : ℚ) (labels : List String),
      calculate_accident_severity v c labels ≠ "NONE" := by
    intro v c labels
    rcases severity_mem_three v c labels with h | h | h <;> rw [h] <;> decide
  refine ⟨severity_mem_three, hne, ?_⟩
  intro g dets o
  by_cases h : (processFrame dets).accident_detected = true
  · simp only [frameStep, h, if_true]
    exact iff_of_false (hne _ _ _) (by simp)
  · simp only [Bool.not_eq_true] at h
    simp [frameStep, h]

/-! ### Claim theorems: Dispatch Gate cooldowns (C1, C9) -/

lemma trigger_preserves_others (g : Globals) (nowC nowD : ℚ)
    (tok tr s2 : Bool) :
    (trigger_ibm_agent g nowC nowD tok tr s2).2.last_snapshot_time =
        g.last_snapshot_time ∧
      (trigger_ibm_agent g nowC nowD tok tr s2).2.incidents = g.incidents := by
  simp only [trigger_ibm_agent]
  split_ifs <;> simp

lemma snapshot_preserves_others (g : Globals) (c : ℚ) (ok : Bool) :
    (snapshotAttempt g c ok).2.last_ibm_trigger_time =
        g.last_ibm_trigger_time ∧
      (snapshotAttempt g c ok).2.incidents = g.incidents := by
  simp only [snapshotAttempt]
  split_ifs <;> simp

/-- C1 counterexample: an evidence-capture attempt whose downstream call
fails (`downstreamOk = false`) still rewrites `last_snapshot_time` (from
0 to 16 here), because main.py line 414 updates the global before the
background thread runs and the thread's outcome has no way back. -/
theorem evidence_cooldown_consumed_on_failed_attempt :
    (snapshotAttempt ⟨0, 0, []⟩ 16 false).2.last_snapshot_time = 16 ∧
      (16 : ℚ) ≠ 0 := by
  constructor
  · have h : SNAPSHOT_COOLDOWN < (16 : ℚ) := by
      norm_num [SNAPSHOT_COOLDOWN]
    simp [snapshotAttempt, h]
  · norm_num

/-- C1 amended: the agent-trigger cooldown transitions only on downstream
success — a cooldown hit, auth failure, transport failure or non-200
response leaves the globals unchanged, and a failed attempt does not block
a later attempt once 60s have elapsed since the previous successful
firing; the evidence-capture timestamp, by contrast, is written whenever
the gate check passes, at attempt time, regardless of the downstream
outcome (which it does not even observe). -/
theorem cooldown_transition_semantics (g : Globals) (nowC nowD : ℚ)
    (tok tr s2 : Bool) :
    ((trigger_ibm_agent g nowC nowD tok tr s2).1 ≠ "triggered" →
      (trigger_ibm_agent g nowC nowD tok tr s2).2 = g) ∧
    ((trigger_ibm_agent g nowC nowD tok tr s2).1 = "triggered" →
      (trigger_ibm_agent g nowC nowD tok tr s2).2 =
        { g with last_ibm_trigger_time := nowD }) ∧
    (∀ (now2 nowD2 : ℚ) (tok2 tr2 s22 : Bool),
      (trigger_ibm_agent g nowC nowD tok tr s2).1 ≠ "triggered" →
      IBM_COOLDOWN ≤ now2 - g.last_ibm_trigger_time →
      (trigger_ibm_agent (trigger_ibm_agent g nowC nowD tok tr s2).2
          now2 nowD2 tok2 tr2 s22).1 ≠ "cooldown") ∧
    (∀ (c : ℚ) (ok ok' : Bool),
      snapshotAttempt g c ok = snapshotAttempt g c ok' ∧
      ((snapshotAttempt g c ok).1 = true →
        (snapshotAttempt g c ok).2.last_snapshot_time = c) ∧
      ((snapshotAttempt g c ok).1 = false →
        (snapshotAttempt g c ok).2 = g)) := by
  have hfail : (trigger_ibm_agent g nowC nowD tok tr s2).1 ≠ "triggered" →
      (trigger_ibm_agent g nowC nowD tok tr s2).2 = g := by
    intro hne
    simp only [trigger_ibm_agent] at hne ⊢
    split_ifs at hne ⊢ <;> first | rfl | simp at hne
  refine ⟨hfail, ?_, ?_, ?_⟩
  · intro heq
    simp only [trigger_ibm_agent] at heq ⊢
    split_ifs at heq ⊢ <;> first | rfl | simp at heq
  · intro now2 nowD2 tok2 tr2 s22 hne helapsed
    rw [hfail hne]
    simp only [trigger_ibm_agent]
    have hnotcool : ¬(now2 - g.last_ibm_trigger_time < IBM_COOLDOWN) :=
      not_lt.mpr helapsed
    split_ifs with hc <;> first | exact absurd hc hnotcool | simp
  · intro c ok ok'
    refine ⟨rfl, ?_, ?_⟩
    · intro hfired
      simp only [snapshotAttempt] at hfired ⊢
      split_ifs at hfired ⊢ <;> simp_all
    · intro hnot
      simp only [snapshotAttempt] at hnot ⊢
      split_ifs at hnot ⊢ <;> simp_all

theorem cooldown_transition_semantics_witness :
    (trigger_ibm_agent ⟨0, 0, []⟩ 100 101 false true true).1 ≠ "triggered" ∧
      (trigger_ibm_agent ⟨0, 0, []⟩ 100 101 false true true).2 = ⟨0, 0, []⟩ := by
  have h : (trigger_ibm_agent ⟨0, 0, []⟩ 100 101 false true true).1 =
      "auth_failed" := by
    have hge : ¬((100 : ℚ) < IBM_COOLDOWN) := by
      norm_num [IBM_COOLDOWN]
    simp [trigger_ibm_agent, hge]
  refine ⟨by rw [h]; decide, ?_⟩
  exact (cooldown_transition_semantics ⟨0, 0, []⟩ 100 101 false true true).1
    (by rw [h]; decide)

/-- C9: the two gated action kinds share no state — the agent trigger
writes (at most) `last_ibm_trigger_time` and preserves the snapshot
timestamp and the incident store; the evidence attempt writes (at most)
`last_snapshot_time` and preserves the agent timestamp and the incident
store; and running either first never changes the other's gate outcome. -/
theorem cooldowns_share_no_state :
    (∀ (g : Globals) (nowC nowD : ℚ) (tok tr s2 : Bool),
      (trigger_ibm_agent g nowC nowD tok tr s2).2.last_snapshot_time =
        g.last_snapshot_time ∧
      (trigger_ibm_agent g nowC nowD tok tr s2).2.incidents = g.incidents) ∧
    (∀ (g : Globals) (c : ℚ) (ok : Bool),
      (snapshotAttempt g c ok).2.last_ibm_trigger_time =
        g.last_ibm_trigger_time ∧
      (snapshotAttempt g c ok).2.incidents = g.incidents) ∧
    (∀ (g : Globals) (nowC nowD : ℚ) (tok tr s2 : Bool) (c : ℚ) (ok : Bool),
      (snapshotAttempt (trigger_ibm_agent g nowC nowD tok tr s2).2 c ok).1 =
        (snapshotAttempt g c ok).1 ∧
      (trigger_ibm_agent (snapshotAttempt g c ok).2 nowC nowD tok tr s2).1 =
        (trigger_ibm_agent g nowC nowD tok tr s2).1) := by
  refine ⟨trigger_preserves_others, snapshot_preserves_others, ?_⟩
  intro g nowC nowD tok tr s2 c ok
  constructor
  · have h1 := (trigger_preserves_others g nowC nowD tok tr s2).1
    simp only [snapshotAttempt, h1]
    split_ifs <;> rfl
  · have h2 := (snapshot_preserves_others g c ok).1
    simp only [trigger_ibm_agent, h2]
    split_ifs <;> rfl

/-! ### Claim theorem: peak-confidence computation (C2) -/

/-- C2 evaluation at a two-detection frame: main.py line 385 executes
`highest_conf = conf` (a plain overwrite) for every detection that passes
the trigger test, so the loop ends holding the LAST matching confidence
(0.5 here), while the maximum over the matching detections — what
`specPeakConfidence`, written from the spec's words, computes — is 0.9;
this is the value `frameStep` then feeds to the severity engine and the
agent dispatch. -/
theorem highest_conf_overwritten_not_max :
    (processFrame [⟨"crash", 0.9⟩, ⟨"crash", 0.5⟩]).highest_conf = 0.5 ∧
    specPeakConfidence [⟨"crash", 0.9⟩, ⟨"crash", 0.5⟩] = 0.9 ∧
    (0.5 : ℚ) ≠ 0.9 ∧
    (∀ (g : Globals) (o : Oracle),
      (frameStep g [⟨"crash", 0.9⟩, ⟨"crash", 0.5⟩] o).1.severity =
        calculate_accident_severity 0 0.5 ["crash", "crash"]) := by
  have hcrit : is_critical "crash" = true := by decide
  have hsup : is_supporting "crash" = false := by decide
  have hcl : classify_vehicle_type "crash" = "other" := by decide
  have ht1 : triggerCond ⟨"crash", 0.9⟩ = true := by
    simp only [triggerCond, hcrit, hsup, Bool.true_and, Bool.false_and,
      Bool.or_false, decide_eq_true_eq]
    norm_num
  have ht2 : triggerCond ⟨"crash", 0.5⟩ = true := by
    simp only [triggerCond, hcrit, hsup, Bool.true_and, Bool.false_and,
      Bool.or_false, decide_eq_true_eq]
    norm_num
  have hpf : processFrame [⟨"crash", 0.9⟩, ⟨"crash", 0.5⟩] =
      ⟨true, 0, 0.5, ["crash", "crash"]⟩ := by
    simp [processFrame, stepDet, ht1, ht2, hcl, initFrameState]
  refine ⟨by rw [hpf], ?_, by norm_num, ?_⟩
  · simp only [specPeakConfidence, List.filter_cons, ht1, ht2,
      if_true, List.filter_nil, List.foldl_cons, List.foldl_nil]
    rw [show max (0 : ℚ) 0.9 = 0.9 from max_eq_right (by norm_num),
      show max (0.9 : ℚ) 0.5 = 0.9 from max_eq_left (by norm_num)]
  · intro g o
    simp [frameStep, hpf]
